import Mathlib

/-!
Verification development for the alert-aid client services.

Shallow embedding of `src/services/locationHazardService.ts`,
`src/services/disasterDataService.ts` and `src/services/shelterService.ts`.
JS numbers are modelled as `ℚ` wherever the code only adds, compares and
divides finite decimal values, and as `ℝ` where the code calls the
transcendental `Math` functions (Haversine distance).  The wall clock
(`Date.now()`, `new Date().getMonth()`) is passed in explicitly.
-/

namespace AlertAid

/-! ### JS string primitives used by the services -/

/-- Whether the first list is a prefix of the second (character comparison). -/
def strStarts : List Char → List Char → Bool
  | [], _ => true
  | _ :: _, [] => false
  | c :: cs, d :: ds => c == d && strStarts cs ds

/-- JS `String.prototype.includes`: `sub` occurs contiguously in `l`. -/
def strContains : List Char → List Char → Bool
  | [], sub => strStarts sub []
  | c :: cs, sub => strStarts sub (c :: cs) || strContains cs sub

/-- The predicate `jsIncludes s sub` models `s.includes(sub)` in JavaScript. -/
def jsIncludes (s sub : String) : Bool :=
  strContains s.data sub.data

/-- JS `String.prototype.toLowerCase` (ASCII case mapping). -/
def jsToLower (s : String) : String := ⟨s.data.map Char.toLower⟩

def trimLeftList : List Char → List Char
  | [] => []
  | c :: cs => if c.isWhitespace then trimLeftList cs else c :: cs

/-- JS `String.prototype.trim`: strip whitespace from both ends. -/
def jsTrim (s : String) : String :=
  ⟨trimLeftList ((trimLeftList s.data.reverse).reverse)⟩

/-- JS `Math.min` on two (non-NaN) numbers. -/
def jsMin (a b : ℚ) : ℚ := if a ≤ b then a else b

/-- JS `Math.max` on two (non-NaN) numbers. -/
def jsMax (a b : ℚ) : ℚ := if a ≤ b then b else a

namespace LocationHazardService

/-! ### Data model (`locationHazardService.ts`) -/

inductive Terrain
  | flat | hilly | mountainous | coastal | delta
  deriving DecidableEq, Repr

inductive Vegetation
  | urban | dense | moderate | sparse | desert
  deriving DecidableEq, Repr

inductive FloodHistory
  | none | rare | occasional | frequent
  deriving DecidableEq, Repr

structure CityGeographicData where
  elevation : ℚ
  terrain : Terrain
  nearRiver : Bool
  riverDistance : ℚ
  nearCoast : Bool
  coastDistance : ℚ
  seismicZone : ℕ
  annualRainfall : ℚ
  vegetation : Vegetation
  floodHistory : FloodHistory
  deriving DecidableEq, Repr

/-- The in-source geographic database, in object-literal insertion order
(JS `Object.entries` iterates string keys in that order). -/
def CITY_GEOGRAPHIC_DATA : List (String × CityGeographicData) := [
  ("delhi", ⟨216, .flat, true, 5, false, 1000, 4, 797, .urban, .occasional⟩),
  ("new delhi", ⟨216, .flat, true, 8, false, 1000, 4, 797, .urban, .rare⟩),
  ("gurgaon", ⟨217, .flat, false, 25, false, 950, 4, 650, .urban, .rare⟩),
  ("noida", ⟨200, .flat, true, 3, false, 1020, 4, 800, .urban, .occasional⟩),
  ("mumbai", ⟨14, .coastal, true, 2, true, 0, 3, 2422, .urban, .frequent⟩),
  ("chennai", ⟨6, .coastal, true, 1, true, 0, 3, 1400, .urban, .frequent⟩),
  ("kolkata", ⟨9, .delta, true, 0, false, 100, 3, 1582, .urban, .frequent⟩),
  ("bangalore", ⟨920, .hilly, false, 50, false, 350, 2, 970, .urban, .occasional⟩),
  ("bengaluru", ⟨920, .hilly, false, 50, false, 350, 2, 970, .urban, .occasional⟩),
  ("shimla", ⟨2276, .mountainous, true, 10, false, 1200, 4, 1575, .dense, .rare⟩),
  ("dehradun", ⟨435, .hilly, true, 5, false, 1100, 4, 2073, .moderate, .occasional⟩),
  ("jaipur", ⟨431, .flat, false, 50, false, 500, 2, 650, .sparse, .rare⟩),
  ("default", ⟨200, .flat, false, 100, false, 500, 2, 800, .moderate, .rare⟩)]

structure WeatherData where
  temperature : ℚ
  humidity : ℚ
  windSpeed : ℚ
  rainfall24h : ℚ
  pressure : ℚ
  description : String
  clouds : ℚ
  deriving DecidableEq, Repr

inductive RiskLevel
  | low | moderate | high | critical
  deriving DecidableEq, Repr

inductive Trend
  | decreasing | stable | increasing
  deriving DecidableEq, Repr

inductive HazardType
  | flood | earthquake | storm | fire | landslide
  deriving DecidableEq, Repr

structure HazardRiskResult where
  type : HazardType
  name : String
  icon : String
  riskLevel : RiskLevel
  probability : ℚ
  confidence : ℚ
  factors : List String
  trend : Trend
  timeframe : String
  recommendations : List String
  dataSource : String
  deriving DecidableEq, Repr

/-- Models `estimateGeographicData`: coordinate-based estimation for India. -/
def estimateGeographicData (lat lon : ℚ) : CityGeographicData :=
  let isHimalayanRegion : Bool := decide (lat > 28 ∧ lat < 36 ∧ lon > 74 ∧ lon < 92)
  let isCoastal : Bool := decide ((lon < 73 ∨ lon > 87) ∨ lat < 12)
  let isGangeticPlain : Bool := decide (lat > 22 ∧ lat < 28 ∧ lon > 78 ∧ lon < 90)
  let isTharDesert : Bool := decide (lat > 24 ∧ lat < 30 ∧ lon > 68 ∧ lon < 76)
  let isWesternGhats : Bool := decide (lon > 73 ∧ lon < 78 ∧ lat > 8 ∧ lat < 21)
  let terrain : Terrain :=
    if isHimalayanRegion then .mountainous
    else if isWesternGhats then .hilly
    else if isCoastal then .coastal
    else .flat
  let seismicZone : ℕ :=
    if isHimalayanRegion then 5
    else if isWesternGhats then 3
    else if isCoastal then 3
    else if isGangeticPlain then 4
    else 2
  let elevation : ℚ :=
    if isHimalayanRegion then 2000
    else if isWesternGhats then 800
    else if isCoastal then 10
    else if isGangeticPlain then 80
    else 200
  { elevation := elevation
    terrain := terrain
    nearRiver := isGangeticPlain || isCoastal
    riverDistance := if isGangeticPlain then 20 else 100
    nearCoast := isCoastal
    coastDistance := if isCoastal then 10 else 500
    seismicZone := seismicZone
    annualRainfall := if isCoastal then 2000 else if isTharDesert then 300 else 800
    vegetation := if isTharDesert then .desert else if isCoastal then .moderate else .urban
    floodHistory := if isGangeticPlain || isCoastal then .occasional else .rare }

/-- Models `getGeographicData`: exact lookup, then first partial (substring) match,
then coordinate-based estimation. -/
def getGeographicData (cityName : String) (lat lon : ℚ) : CityGeographicData :=
  let normalizedCity := jsTrim (jsToLower cityName)
  match CITY_GEOGRAPHIC_DATA.lookup normalizedCity with
  | some data => data
  | none =>
    match CITY_GEOGRAPHIC_DATA.find? (fun p =>
        jsIncludes normalizedCity p.1 || jsIncludes p.1 normalizedCity) with
    | some p => p.2
    | none => estimateGeographicData lat lon

/-- Models `getRiskLevel`: threshold mapping from probability to risk level. -/
def getRiskLevel (probability : ℚ) : RiskLevel :=
  if probability ≥ 0.70 then .critical
  else if probability ≥ 0.45 then .high
  else if probability ≥ 0.20 then .moderate
  else .low

def getFloodRecommendations (risk : ℚ) : List String :=
  if risk < 0.20 then
    ["Standard preparedness is sufficient",
     "Keep emergency contacts handy",
     "Monitor weather forecasts during monsoon"]
  else if risk < 0.45 then
    ["Monitor local weather updates",
     "Keep important documents elevated",
     "Know your evacuation routes",
     "Have emergency supplies ready"]
  else
    ["⚠️ Prepare for potential flooding",
     "Move valuables to higher ground",
     "Stock emergency supplies and water",
     "Avoid low-lying areas",
     "Keep emergency evacuation bag ready"]

def getEarthquakeRecommendations (risk : ℚ) : List String :=
  let base := ["Secure heavy furniture to walls",
               "Identify safe spots (under sturdy tables)",
               "Keep emergency kit accessible"]
  if risk ≥ 0.25 then
    base ++ ["⚠️ Area is in high seismic zone",
             "Practice drop, cover, and hold on",
             "Know how to turn off gas/electricity"]
  else base

def getStormRecommendations (risk : ℚ) : List String :=
  if risk < 0.20 then
    ["No storm precautions needed currently", "Continue monitoring forecasts"]
  else if risk < 0.45 then
    ["Secure loose outdoor items",
     "Keep devices charged",
     "Stay updated on weather alerts"]
  else
    ["⚠️ Storm conditions developing",
     "Stay indoors during storm",
     "Secure all outdoor objects",
     "Have flashlights and batteries ready",
     "Avoid windows and electrical equipment"]

def getFireRecommendations (risk : ℚ) : List String :=
  if risk < 0.15 then
    ["Urban area - standard fire safety applies", "Ensure smoke detectors work"]
  else
    ["Clear dry vegetation from property",
     "Have evacuation plan ready",
     "Keep important documents accessible",
     "Monitor air quality alerts"]

def getLandslideRecommendations (risk : ℚ) (terrain : Terrain) : List String :=
  if terrain = .flat then
    ["Flat terrain - landslide risk negligible", "No special precautions needed"]
  else if risk < 0.20 then
    ["Low risk but monitor during heavy rain",
     "Avoid steep slopes in wet weather"]
  else
    ["⚠️ Be alert in hilly/mountainous areas",
     "Avoid steep slopes during rain",
     "Watch for cracks in ground",
     "Be alert to unusual sounds (rumbling)",
     "Know evacuation routes away from slopes"]

/-! Flood risk: each `+=` of `calculateFloodRisk` becomes an independent
(score, factor) pair; the sequential accumulation is their sum. -/

def floodRiverFactor (g : CityGeographicData) : ℚ × List String :=
  if g.nearRiver ∧ g.riverDistance < 10 then
    (25, ["Located " ++ toString g.riverDistance ++ "km from river"])
  else if g.nearRiver then (10, ["River in vicinity"])
  else (0, [])

def floodCoastFactor (g : CityGeographicData) : ℚ × List String :=
  if g.nearCoast then (20, ["Coastal location - storm surge risk"]) else (0, [])

def floodTerrainFactor (g : CityGeographicData) : ℚ × List String :=
  if g.terrain = .delta then (25, ["Low-lying delta region"])
  else if g.terrain = .flat ∧ g.elevation < 50 then (15, ["Low elevation flat terrain"])
  else (0, [])

def floodHistoryFactor (g : CityGeographicData) : ℚ × List String :=
  if g.floodHistory = .frequent then (20, ["Area has frequent flooding history"])
  else if g.floodHistory = .occasional then (10, ["Occasional flooding in region"])
  else (0, [])

def floodRainFactor (w : WeatherData) : ℚ × List String :=
  if w.rainfall24h > 50 then (30, ["Heavy rainfall: " ++ toString w.rainfall24h ++ "mm"])
  else if w.rainfall24h > 20 then (15, ["Moderate rainfall: " ++ toString w.rainfall24h ++ "mm"])
  else if w.rainfall24h > 5 then (5, ["Light rainfall recorded"])
  else (0, [])

def floodHumidityFactor (w : WeatherData) : ℚ × List String :=
  if w.humidity > 85 then (10, ["High humidity: " ++ toString w.humidity ++ "%"]) else (0, [])

/-- Models `new Date().getMonth()` is 0-based; June–September is `5 ≤ m ≤ 8`. -/
def floodMonsoonFactor (g : CityGeographicData) (month : ℕ) : ℚ × List String :=
  if 5 ≤ month ∧ month ≤ 8 ∧ g.annualRainfall > 1000 then
    (15, ["Active monsoon season"])
  else (0, [])

def floodRiskScore (g : CityGeographicData) (w : WeatherData) (month : ℕ) : ℚ :=
  (floodRiverFactor g).1 + (floodCoastFactor g).1 + (floodTerrainFactor g).1 +
    (floodHistoryFactor g).1 + (floodRainFactor w).1 + (floodHumidityFactor w).1 +
    (floodMonsoonFactor g month).1

def floodFactors (g : CityGeographicData) (w : WeatherData) (month : ℕ) : List String :=
  (floodRiverFactor g).2 ++ (floodCoastFactor g).2 ++ (floodTerrainFactor g).2 ++
    (floodHistoryFactor g).2 ++ (floodRainFactor w).2 ++ (floodHumidityFactor w).2 ++
    (floodMonsoonFactor g month).2

/-- Models `calculateFloodRisk`.  The source has two return statements (a capped one
when the location is flat and far from water); here the branch is pushed into
the fields that differ (`probability`, hence `riskLevel` and
`recommendations`, and the default `factors` text). -/
def calculateFloodRisk (g : CityGeographicData) (w : WeatherData) (month : ℕ) :
    HazardRiskResult :=
  let probability := jsMin (floodRiskScore g w month / 100) 0.95
  let capped := g.nearRiver = false ∧ g.nearCoast = false ∧ g.terrain = Terrain.flat
  let p := if capped then jsMin probability 0.25 else probability
  { type := .flood
    name := "Flood"
    icon := "🌊"
    riskLevel := getRiskLevel p
    probability := p
    confidence := 0.85
    factors :=
      if (floodFactors g w month).length > 0 then floodFactors g w month
      else if capped then ["No significant flood risk factors in area"]
      else ["Low flood risk area"]
    trend := if w.rainfall24h > 10 then .increasing else .stable
    timeframe := "Next 24-48 hours"
    recommendations := getFloodRecommendations p
    dataSource := "Geographic analysis + Real-time weather" }

/-! Earthquake risk. -/

/-- The `switch (geoData.seismicZone)` of `calculateEarthquakeRisk`
(case-equality tests with a default). -/
def quakeZoneFactor (g : CityGeographicData) : ℚ × List String :=
  if g.seismicZone = 5 then
    (45, ["Located in Seismic Zone V (Very High Risk)",
          "Himalayan fault line proximity"])
  else if g.seismicZone = 4 then (25, ["Located in Seismic Zone IV (High Risk)"])
  else if g.seismicZone = 3 then (15, ["Located in Seismic Zone III (Moderate Risk)"])
  else if g.seismicZone = 2 then (8, ["Located in Seismic Zone II (Low Risk)"])
  else (5, ["Located in Seismic Zone I (Very Low Risk)"])

def quakeTerrainFactor (g : CityGeographicData) : ℚ × List String :=
  if g.terrain = .mountainous then
    (10, ["Mountainous terrain - higher seismic activity"])
  else (0, [])

def quakeRiskScore (g : CityGeographicData) : ℚ :=
  (quakeZoneFactor g).1 + (quakeTerrainFactor g).1

/-- Models `calculateEarthquakeRisk` — takes only the geographic data. -/
def calculateEarthquakeRisk (g : CityGeographicData) : HazardRiskResult :=
  let probability := jsMin (quakeRiskScore g / 100) 0.60
  { type := .earthquake
    name := "Earthquake"
    icon := "🏚️"
    riskLevel := getRiskLevel probability
    probability := probability
    confidence := 0.55
    factors := (quakeZoneFactor g).2 ++ (quakeTerrainFactor g).2
    trend := .stable
    timeframe := "Ongoing monitoring"
    recommendations := getEarthquakeRecommendations probability
    dataSource := "Indian Seismic Zonation Map" }

/-! Storm risk. -/

def stormWindFactor (w : WeatherData) : ℚ × List String :=
  if w.windSpeed > 20 then (40, ["High winds: " ++ toString w.windSpeed ++ " m/s"])
  else if w.windSpeed > 10 then (20, ["Moderate winds: " ++ toString w.windSpeed ++ " m/s"])
  else if w.windSpeed > 5 then (5, ["Light winds"])
  else (0, [])

def stormPressureFactor (w : WeatherData) : ℚ × List String :=
  if w.pressure < 1000 then (25, ["Low pressure system: " ++ toString w.pressure ++ " hPa"])
  else if w.pressure < 1010 then (10, ["Slightly low pressure"])
  else (0, [])

def stormCloudFactor (w : WeatherData) : ℚ × List String :=
  if w.clouds > 80 then (15, ["Heavy cloud cover"]) else (0, [])

def stormCoastFactor (g : CityGeographicData) : ℚ × List String :=
  if g.nearCoast then (15, ["Coastal exposure to cyclones"]) else (0, [])

def stormDescriptionFactor (w : WeatherData) : ℚ × List String :=
  if jsIncludes w.description "storm" || jsIncludes w.description "thunder" then
    (30, ["Current conditions: " ++ w.description])
  else (0, [])

def stormRiskScore (g : CityGeographicData) (w : WeatherData) : ℚ :=
  (stormWindFactor w).1 + (stormPressureFactor w).1 + (stormCloudFactor w).1 +
    (stormCoastFactor g).1 + (stormDescriptionFactor w).1

def stormFactors (g : CityGeographicData) (w : WeatherData) : List String :=
  (stormWindFactor w).2 ++ (stormPressureFactor w).2 ++ (stormCloudFactor w).2 ++
    (stormCoastFactor g).2 ++ (stormDescriptionFactor w).2

/-- Models `calculateStormRisk`. -/
def calculateStormRisk (g : CityGeographicData) (w : WeatherData) : HazardRiskResult :=
  let probability := jsMin (stormRiskScore g w / 100) 0.90
  { type := .storm
    name := "Severe Storm"
    icon := "⛈️"
    riskLevel := getRiskLevel probability
    probability := probability
    confidence := 0.80
    factors :=
      if (stormFactors g w).length > 0 then stormFactors g w
      else ["Calm weather conditions"]
    trend := if w.windSpeed > 10 ∨ w.pressure < 1005 then .increasing else .stable
    timeframe := "Next 6-12 hours"
    recommendations := getStormRecommendations probability
    dataSource := "Real-time meteorological data" }

/-! Fire risk. -/

def fireVegetationFactor (g : CityGeographicData) : ℚ × List String :=
  if g.vegetation = .dense then (25, ["Dense vegetation cover"])
  else if g.vegetation = .moderate then (15, ["Moderate vegetation"])
  else (0, [])

def fireHumidityFactor (w : WeatherData) : ℚ × List String :=
  if w.humidity < 30 then (30, ["Very low humidity: " ++ toString w.humidity ++ "%"])
  else if w.humidity < 50 then (15, ["Low humidity: " ++ toString w.humidity ++ "%"])
  else (0, [])

def fireTemperatureFactor (w : WeatherData) : ℚ × List String :=
  if w.temperature > 40 then (25, ["Extreme heat: " ++ toString w.temperature ++ "°C"])
  else if w.temperature > 35 then (15, ["High temperature: " ++ toString w.temperature ++ "°C"])
  else (0, [])

def fireWindFactor (w : WeatherData) : ℚ × List String :=
  if w.windSpeed > 15 then (20, ["High winds can spread fire"]) else (0, [])

/-- Score before the rainfall reduction: 5 for urban areas, otherwise the
sum of vegetation, humidity, temperature and wind contributions. -/
def fireBaseScore (g : CityGeographicData) (w : WeatherData) : ℚ :=
  if g.vegetation = .urban then 5
  else (fireVegetationFactor g).1 + (fireHumidityFactor w).1 +
    (fireTemperatureFactor w).1 + (fireWindFactor w).1

/-- Models `riskScore = Math.max(0, riskScore - 20)` when it rained recently. -/
def fireRiskScore (g : CityGeographicData) (w : WeatherData) : ℚ :=
  if w.rainfall24h > 5 then jsMax 0 (fireBaseScore g w - 20) else fireBaseScore g w

def fireFactors (g : CityGeographicData) (w : WeatherData) : List String :=
  (if g.vegetation = .urban then ["Urban area - minimal wildfire risk"]
   else (fireVegetationFactor g).2 ++ (fireHumidityFactor w).2 ++
     (fireTemperatureFactor w).2 ++ (fireWindFactor w).2) ++
  (if w.rainfall24h > 5 then ["Recent rainfall reduces risk"] else [])

/-- Models `calculateFireRisk`. -/
def calculateFireRisk (g : CityGeographicData) (w : WeatherData) : HazardRiskResult :=
  let probability := jsMin (fireRiskScore g w / 100) 0.80
  { type := .fire
    name := "Wildfire"
    icon := "🔥"
    riskLevel := getRiskLevel probability
    probability := probability
    confidence := 0.75
    factors := fireFactors g w
    trend := if w.humidity < 40 ∧ w.temperature > 35 then .increasing else .stable
    timeframe := "Seasonal assessment"
    recommendations := getFireRecommendations probability
    dataSource := "Weather data + Vegetation analysis" }

/-! Landslide risk. -/

def landslideTerrainFactor (g : CityGeographicData) : ℚ × List String :=
  if g.terrain = .mountainous then (35, ["Mountainous terrain - high landslide risk"])
  else if g.terrain = .hilly then (20, ["Hilly terrain - moderate slope risk"])
  else if g.terrain = .flat then (2, ["Flat terrain - minimal landslide risk"])
  else (0, [])

def landslideRainFactor (w : WeatherData) : ℚ × List String :=
  if w.rainfall24h > 50 then
    (35, ["Heavy rainfall saturating slopes: " ++ toString w.rainfall24h ++ "mm"])
  else if w.rainfall24h > 20 then (20, ["Moderate rainfall affecting soil stability"])
  else (0, [])

def landslideSeismicFactor (g : CityGeographicData) : ℚ × List String :=
  if g.seismicZone ≥ 4 then (15, ["High seismic activity can trigger slides"]) else (0, [])

def landslideElevationFactor (g : CityGeographicData) : ℚ × List String :=
  if g.elevation > 1500 then (10, ["High elevation: " ++ toString g.elevation ++ "m"])
  else (0, [])

/-- Weather and secondary factors only apply on non-flat terrain. -/
def landslideRiskScore (g : CityGeographicData) (w : WeatherData) : ℚ :=
  (landslideTerrainFactor g).1 +
    (if g.terrain ≠ .flat then
      (landslideRainFactor w).1 + (landslideSeismicFactor g).1 +
        (landslideElevationFactor g).1
     else 0)

def landslideFactors (g : CityGeographicData) (w : WeatherData) : List String :=
  (landslideTerrainFactor g).2 ++
    (if g.terrain ≠ .flat then
      (landslideRainFactor w).2 ++ (landslideSeismicFactor g).2 ++
        (landslideElevationFactor g).2
     else [])

/-- Models `calculateLandslideRisk`. -/
def calculateLandslideRisk (g : CityGeographicData) (w : WeatherData) : HazardRiskResult :=
  let probability := jsMin (landslideRiskScore g w / 100) 0.85
  { type := .landslide
    name := "Landslide"
    icon := "🏔️"
    riskLevel := getRiskLevel probability
    probability := probability
    confidence := if g.terrain = .flat then 0.95 else 0.70
    factors := landslideFactors g w
    trend := if w.rainfall24h > 30 ∧ g.terrain ≠ .flat then .increasing else .stable
    timeframe := "Next 72 hours"
    recommendations := getLandslideRecommendations probability g.terrain
    dataSource := "Topographic analysis + Weather data" }

end LocationHazardService

/-! ### TTL caches (`Map` from key to `{data, timestamp}`) -/

/-- A cache entry: `{ data, timestamp }` with the timestamp in milliseconds. -/
structure CacheEntry (α : Type) where
  data : α
  timestamp : ℚ

/-- Models `Map.get`: first (unique) binding for the key. -/
def lookupEntry {κ α : Type} [DecidableEq κ] :
    List (κ × CacheEntry α) → κ → Option (CacheEntry α)
  | [], _ => none
  | (k', e) :: rest, k => if k' = k then some e else lookupEntry rest k

/-- Models `Map.set`: insert or replace the binding for the key; no other binding
is ever removed (the services have no eviction). -/
def setEntry {κ α : Type} [DecidableEq κ] (c : List (κ × CacheEntry α)) (k : κ)
    (e : CacheEntry α) : List (κ × CacheEntry α) :=
  (k, e) :: c.filter (fun p => p.1 ≠ k)

/-- Models `x.toFixed(2)` as a rounding operation (ties away from zero upward,
per the ECMAScript `toFixed` specification). -/
def roundTo2 (q : ℚ) : ℚ := (round (q * 100) : ℤ) / 100

/-- Models `x.toFixed(3)` as a rounding operation. -/
def roundTo3 (q : ℚ) : ℚ := (round (q * 1000) : ℤ) / 1000

namespace LocationHazardService

abbrev WeatherCache := List ((ℚ × ℚ) × CacheEntry WeatherData)

/-- Models `CACHE_DURATION = 1000 * 60 * 10` (10 minutes, in ms). -/
def CACHE_DURATION : ℚ := 1000 * 60 * 10

/-- Default weather returned when the OpenWeatherMap fetch fails. -/
def defaultWeather : WeatherData := ⟨25, 50, 5, 0, 1013, "clear", 20⟩

/-- Models `getWeatherData`.  The network is an oracle `net`: `some d` is a parsed
successful response, `none` is any fetch failure (the `catch` branch).
The result is `(weather, new cache state, whether a network call was made)`. -/
def getWeatherData (cache : WeatherCache) (lat lon now : ℚ)
    (net : Option WeatherData) : WeatherData × WeatherCache × Bool :=
  let cacheKey := (roundTo2 lat, roundTo2 lon)
  match lookupEntry cache cacheKey with
  | some cached =>
    if now - cached.timestamp < CACHE_DURATION then (cached.data, cache, false)
    else
      match net with
      | some d => (d, setEntry cache cacheKey ⟨d, now⟩, true)
      | Option.none => (defaultWeather, cache, true)
  | Option.none =>
    match net with
    | some d => (d, setEntry cache cacheKey ⟨d, now⟩, true)
    | Option.none => (defaultWeather, cache, true)

/-- Models `getHazardPredictions`: geographic lookup, one weather fetch, then the
five scoring functions over the same `geoData` and `weather`. -/
def getHazardPredictions (cityName : String) (lat lon : ℚ) (cache : WeatherCache)
    (now : ℚ) (net : Option WeatherData) (month : ℕ) : List HazardRiskResult :=
  let geoData := getGeographicData cityName lat lon
  let weather := (getWeatherData cache lat lon now net).1
  [calculateFloodRisk geoData weather month,
   calculateEarthquakeRisk geoData,
   calculateStormRisk geoData weather,
   calculateFireRisk geoData weather,
   calculateLandslideRisk geoData weather]

end LocationHazardService

/-- JS `Math.atan2`. -/
noncomputable def jsAtan2 (y x : ℝ) : ℝ :=
  if 0 < x then Real.arctan (y / x)
  else if x < 0 then
    (if 0 ≤ y then Real.arctan (y / x) + Real.pi else Real.arctan (y / x) - Real.pi)
  else if 0 < y then Real.pi / 2
  else if y < 0 then -(Real.pi / 2)
  else 0

namespace DisasterDataService

open AlertAid.LocationHazardService (RiskLevel)

/-! ### Data model (`disasterDataService.ts`) -/

inductive SourceStatus
  | active | error | loading
  deriving DecidableEq, Repr

structure DataSource where
  name : String
  status : SourceStatus
  lastUpdated : Option ℚ
  confidence : ℚ
  dataCount : ℕ

/-- One element of a NASA EONET event's `geometry` array; `coordinates`
is `[longitude, latitude]`, read as `coords[0]`, `coords[1]`. -/
structure GeometryEntry where
  date : String
  gtype : String
  coordinates : ℚ × ℚ

structure NASAEvent where
  id : String
  title : String
  description : String
  category : String
  geometry : List GeometryEntry
  sources : List (String × String)

inductive FireIntensity
  | low | moderate | high | extreme
  deriving DecidableEq, Repr

def intensityText : FireIntensity → String
  | .low => "low" | .moderate => "moderate" | .high => "high" | .extreme => "extreme"

structure FIRMSFire where
  latitude : ℚ
  longitude : ℚ
  brightness : ℚ
  frp : ℚ
  confidence : String
  intensity : FireIntensity
  distance_km : Option ℚ
  acq_date : Option String
  acq_time : Option String
  source : String

inductive GDACSLevel
  | green | orange | red
  deriving DecidableEq, Repr

/-- Models `coordinates` is `{ lat, lon }`. -/
structure GDACSAlert where
  eventId : String
  eventType : String
  alertLevel : GDACSLevel
  title : String
  description : String
  pubDate : String
  link : String
  coordinates : ℚ × ℚ

inductive IMDSeverity
  | yellow | orange | red
  deriving DecidableEq, Repr

structure IMDWarning where
  type : String
  severity : IMDSeverity
  message : String
  instructions : List String
  valid_from : String
  valid_until : String

/-- Models `coordinates` is `[longitude, latitude, depth]`. -/
structure USGSEarthquake where
  id : String
  magnitude : ℚ
  place : String
  time : ℚ
  coordinates : ℚ × ℚ × ℚ
  tsunami : Bool
  alert : Option String
  significance : ℚ

structure NearbyThreat where
  type : String
  distance : ℤ
  severity : RiskLevel
  source : String
  description : String

structure EventsBundle where
  earthquakes : List USGSEarthquake
  wildfires : List NASAEvent
  activeFires : List FIRMSFire
  storms : List NASAEvent
  floods : List NASAEvent
  volcanoes : List NASAEvent
  gdacsAlerts : List GDACSAlert
  imdWarnings : List IMDWarning

structure AggregatedDisasterData where
  sources : List DataSource
  events : EventsBundle
  nearbyThreats : List NearbyThreat
  overallConfidence : ℚ
  lastUpdated : ℚ

/-! ### The single `private static cache: Map<string, {data, timestamp}>`.
The payloads of the five fetchers share one map under disjoint string-key
namespaces; the payload is the corresponding sum type. -/

inductive DisasterPayload
  | nasa (events : List NASAEvent)
  | gdacs (alerts : List GDACSAlert)
  | usgs (earthquakes : List USGSEarthquake)
  | firms (fires : List FIRMSFire)
  | imd (warnings : List IMDWarning)

abbrev DisasterCache := List (String × CacheEntry DisasterPayload)

/-- Models `CACHE_DURATION = 5 * 60 * 1000` (5 minutes). -/
def CACHE_DURATION : ℚ := 5 * 60 * 1000

/-- Models `getFromCache`: the cached data if present and younger than the TTL. -/
def getFromCache (cache : DisasterCache) (key : String) (now : ℚ) :
    Option DisasterPayload :=
  match lookupEntry cache key with
  | some cached =>
    if now - cached.timestamp < CACHE_DURATION then some cached.data else none
  | Option.none => none

/-- Models `setCache`. -/
def setCache (cache : DisasterCache) (key : String) (data : DisasterPayload)
    (now : ℚ) : DisasterCache :=
  setEntry cache key ⟨data, now⟩

/-- Cache keys of the coordinate-dependent fetchers
(`usgs_${lat.toFixed(2)}_${lon.toFixed(2)}` and so on). -/
def usgsKey (lat lon : ℚ) : String :=
  "usgs_" ++ toString (roundTo2 lat) ++ "_" ++ toString (roundTo2 lon)

def roundTo1 (q : ℚ) : ℚ := (round (q * 10) : ℤ) / 10

def firmsKey (lat lon : ℚ) : String :=
  "firms_" ++ toString (roundTo1 lat) ++ "_" ++ toString (roundTo1 lon)

def imdKey (lat lon : ℚ) : String :=
  "imd_" ++ toString (roundTo2 lat) ++ "_" ++ toString (roundTo2 lon)

/-- Models `fetchNASAEvents`.  `net = some events` is a parsed OK response;
`net = none` is any network failure, timeout or non-OK status (every such
path returns `[]` without caching).  A cached payload of the wrong shape is
unreachable under the key discipline and treated as a miss. -/
def fetchNASAEvents (cache : DisasterCache) (now : ℚ)
    (net : Option (List NASAEvent)) : List NASAEvent × DisasterCache × Bool :=
  match getFromCache cache "nasa_eonet" now with
  | some (.nasa events) => (events, cache, false)
  | _ =>
    match net with
    | some events => (events, setCache cache "nasa_eonet" (.nasa events) now, true)
    | Option.none => ([], cache, true)

/-- Models `fetchGDACSAlerts`. -/
def fetchGDACSAlerts (cache : DisasterCache) (now : ℚ)
    (net : Option (List GDACSAlert)) : List GDACSAlert × DisasterCache × Bool :=
  match getFromCache cache "gdacs_alerts" now with
  | some (.gdacs alerts) => (alerts, cache, false)
  | _ =>
    match net with
    | some alerts => (alerts, setCache cache "gdacs_alerts" (.gdacs alerts) now, true)
    | Option.none => ([], cache, true)

/-- Models `fetchUSGSEarthquakes` (the `radiusKm` parameter only feeds the URL). -/
def fetchUSGSEarthquakes (cache : DisasterCache) (lat lon _radiusKm now : ℚ)
    (net : Option (List USGSEarthquake)) :
    List USGSEarthquake × DisasterCache × Bool :=
  match getFromCache cache (usgsKey lat lon) now with
  | some (.usgs earthquakes) => (earthquakes, cache, false)
  | _ =>
    match net with
    | some earthquakes =>
      (earthquakes, setCache cache (usgsKey lat lon) (.usgs earthquakes) now, true)
    | Option.none => ([], cache, true)

/-- Models `fetchNASAFIRMS`. -/
def fetchNASAFIRMS (cache : DisasterCache) (lat lon now : ℚ)
    (net : Option (List FIRMSFire)) : List FIRMSFire × DisasterCache × Bool :=
  match getFromCache cache (firmsKey lat lon) now with
  | some (.firms fires) => (fires, cache, false)
  | _ =>
    match net with
    | some fires => (fires, setCache cache (firmsKey lat lon) (.firms fires) now, true)
    | Option.none => ([], cache, true)

/-- Models `fetchIMDWarnings`. -/
def fetchIMDWarnings (cache : DisasterCache) (lat lon now : ℚ)
    (net : Option (List IMDWarning)) : List IMDWarning × DisasterCache × Bool :=
  match getFromCache cache (imdKey lat lon) now with
  | some (.imd warnings) => (warnings, cache, false)
  | _ =>
    match net with
    | some warnings =>
      (warnings, setCache cache (imdKey lat lon) (.imd warnings) now, true)
    | Option.none => ([], cache, true)

/-- The `a` of the Haversine formula. -/
noncomputable def haversineA (lat1 lon1 lat2 lon2 : ℝ) : ℝ :=
  Real.sin ((lat2 - lat1) * Real.pi / 180 / 2) *
      Real.sin ((lat2 - lat1) * Real.pi / 180 / 2) +
    Real.cos (lat1 * Real.pi / 180) * Real.cos (lat2 * Real.pi / 180) *
      (Real.sin ((lon2 - lon1) * Real.pi / 180 / 2) *
        Real.sin ((lon2 - lon1) * Real.pi / 180 / 2))

/-- Models `calculateDistance` (Haversine, Earth radius 6371 km). -/
noncomputable def calculateDistance (lat1 lon1 lat2 lon2 : ℝ) : ℝ :=
  6371 * (2 * jsAtan2 (Real.sqrt (haversineA lat1 lon1 lat2 lon2))
    (Real.sqrt (1 - haversineA lat1 lon1 lat2 lon2)))

/-- Ordering of nearby threats: ascending rounded distance. -/
def threatLE (a b : NearbyThreat) : Prop := a.distance ≤ b.distance

instance : DecidableRel threatLE :=
  fun a b => inferInstanceAs (Decidable (a.distance ≤ b.distance))

instance : IsTotal NearbyThreat threatLE := ⟨fun a b => le_total a.distance b.distance⟩

instance : IsTrans NearbyThreat threatLE := ⟨fun _ _ _ h1 h2 => le_trans h1 h2⟩

noncomputable def quakeThreats (lat lon : ℚ) (earthquakes : List USGSEarthquake) :
    List NearbyThreat :=
  earthquakes.filterMap (fun eq =>
    let distance := calculateDistance (lat : ℝ) (lon : ℝ)
      (eq.coordinates.2.1 : ℝ) (eq.coordinates.1 : ℝ)
    if distance < 500 then
      some ⟨"Earthquake", round distance,
        if eq.magnitude ≥ 6 then .critical
        else if eq.magnitude ≥ 5 then .high
        else if eq.magnitude ≥ 4 then .moderate
        else .low,
        "USGS", "M" ++ toString eq.magnitude ++ " - " ++ eq.place⟩
    else none)

noncomputable def nasaThreats (lat lon : ℚ) (nasaEvents : List NASAEvent) :
    List NearbyThreat :=
  nasaEvents.filterMap (fun event =>
    match event.geometry with
    | [] => none
    | ge :: _ =>
      let distance := calculateDistance (lat : ℝ) (lon : ℝ)
        (ge.coordinates.2 : ℝ) (ge.coordinates.1 : ℝ)
      if distance < 1000 then
        some ⟨event.category, round distance,
          if distance < 100 then .critical
          else if distance < 300 then .high
          else .moderate,
          "NASA EONET", event.title⟩
      else none)

/-- Models `fire.distance_km && fire.distance_km < 200`: `null` and `0` are falsy. -/
def fireThreats (activeFires : List FIRMSFire) : List NearbyThreat :=
  activeFires.filterMap (fun fire =>
    match fire.distance_km with
    | some d =>
      if d ≠ 0 ∧ d < 200 then
        some ⟨"Active Fire", round d,
          if fire.intensity = .extreme ∨ d < 20 then .critical
          else if fire.intensity = .high ∨ d < 50 then .high
          else if fire.intensity = .low then .low
          else .moderate,
          "NASA FIRMS",
          "Fire hotspot (" ++ intensityText fire.intensity ++ " intensity, FRP: " ++
            toString fire.frp ++ ")"⟩
      else none
    | Option.none => none)

def imdThreats (imdWarnings : List IMDWarning) : List NearbyThreat :=
  imdWarnings.map (fun warning =>
    ⟨warning.type, 0,
      match warning.severity with
      | .red => .critical
      | .orange => .high
      | .yellow => .moderate,
      "IMD", warning.message⟩)

noncomputable def gdacsThreats (lat lon : ℚ) (gdacsAlerts : List GDACSAlert) :
    List NearbyThreat :=
  gdacsAlerts.filterMap (fun alert =>
    if alert.coordinates.1 ≠ 0 ∧ alert.coordinates.2 ≠ 0 then
      let distance := calculateDistance (lat : ℝ) (lon : ℝ)
        (alert.coordinates.1 : ℝ) (alert.coordinates.2 : ℝ)
      if distance < 1000 then
        some ⟨alert.eventType, round distance,
          match alert.alertLevel with
          | .red => .critical
          | .orange => .high
          | .green => .moderate,
          "GDACS", alert.title⟩
      else none
    else none)

/-- Models `calculateNearbyThreats`: collect, sort by distance, keep the first 10. -/
noncomputable def calculateNearbyThreats (lat lon : ℚ)
    (earthquakes : List USGSEarthquake) (nasaEvents : List NASAEvent)
    (gdacsAlerts : List GDACSAlert) (activeFires : List FIRMSFire)
    (imdWarnings : List IMDWarning) : List NearbyThreat :=
  ((quakeThreats lat lon earthquakes ++ nasaThreats lat lon nasaEvents ++
      fireThreats activeFires ++ imdThreats imdWarnings ++
      gdacsThreats lat lon gdacsAlerts).insertionSort threatLE).take 10

/-- Network outcomes of the five independent upstream fetches. -/
structure NetOutcomes where
  nasa : Option (List NASAEvent)
  gdacs : Option (List GDACSAlert)
  usgs : Option (List USGSEarthquake)
  firms : Option (List FIRMSFire)
  imd : Option (List IMDWarning)

/-- Models `getAggregatedData`.  The source array is pushed in resolution order of
`Promise.all`; modelled in program order, with OpenWeatherMap appended.
The status ternary `length >= 0 ? 'active' : 'error'` always yields
`'active'`. -/
noncomputable def getAggregatedData (cache : DisasterCache) (lat lon now : ℚ)
    (net : NetOutcomes) : AggregatedDisasterData :=
  let r1 := fetchNASAEvents cache now net.nasa
  let nasaEvents := r1.1
  let r2 := fetchGDACSAlerts r1.2.1 now net.gdacs
  let gdacsAlerts := r2.1
  let r3 := fetchUSGSEarthquakes r2.2.1 lat lon 1000 now net.usgs
  let earthquakes := r3.1
  let r4 := fetchNASAFIRMS r3.2.1 lat lon now net.firms
  let activeFires := r4.1
  let r5 := fetchIMDWarnings r4.2.1 lat lon now net.imd
  let imdWarnings := r5.1
  let sources : List DataSource := [
    ⟨"NASA EONET", .active, some now,
      if nasaEvents.length > 0 then 95 else 50, nasaEvents.length⟩,
    ⟨"GDACS", .active, some now,
      if gdacsAlerts.length > 0 then 92 else 60, gdacsAlerts.length⟩,
    ⟨"USGS Earthquake", .active, some now, 98, earthquakes.length⟩,
    ⟨"NASA FIRMS", .active, some now,
      if activeFires.length > 0 then 94 else 70, activeFires.length⟩,
    ⟨"IMD Warnings", .active, some now,
      if imdWarnings.length > 0 then 88 else 75, imdWarnings.length⟩,
    ⟨"OpenWeatherMap", .active, some now, 85, 1⟩]
  let wildfires := nasaEvents.filter (fun e =>
    jsIncludes (jsToLower e.category) "wildfire" || jsIncludes (jsToLower e.category) "fire")
  let storms := nasaEvents.filter (fun e =>
    jsIncludes (jsToLower e.category) "storm" || jsIncludes (jsToLower e.category) "cyclone")
  let floods := nasaEvents.filter (fun e => jsIncludes (jsToLower e.category) "flood")
  let volcanoes := nasaEvents.filter (fun e => jsIncludes (jsToLower e.category) "volcano")
  let nearbyThreats := calculateNearbyThreats lat lon earthquakes nasaEvents
    gdacsAlerts activeFires imdWarnings
  let overallConfidence :=
    (sources.foldl (fun sum s => sum + s.confidence) 0) / (sources.length : ℚ)
  { sources := sources
    events := ⟨earthquakes, wildfires, activeFires, storms, floods, volcanoes,
      gdacsAlerts, imdWarnings⟩
    nearbyThreats := nearbyThreats
    overallConfidence := overallConfidence
    lastUpdated := now }

end DisasterDataService

namespace ShelterService

/-! ### Data model (`shelterService.ts`) -/

inductive ShelterType
  | shelter | hospital | fire_station | police | school | community_center
  deriving DecidableEq, Repr

structure RealShelter where
  id : String
  name : String
  address : String
  lat : ℚ
  lng : ℚ
  type : ShelterType
  phone : Option String
  rating : Option ℚ
  isOpen : Option Bool
  distance : Option ℚ
  placeId : Option String

abbrev ShelterCache := List ((ℚ × ℚ × ℚ) × CacheEntry (List RealShelter))

/-- Models `CACHE_DURATION = 15 * 60 * 1000` (15 minutes). -/
def CACHE_DURATION : ℚ := 15 * 60 * 1000

/-- The shelter variant of `calculateDistance`: Haversine rounded to one
decimal (`Math.round(R * c * 10) / 10`). -/
noncomputable def calculateDistance (lat1 lng1 lat2 lng2 : ℝ) : ℝ :=
  (round (DisasterDataService.calculateDistance lat1 lng1 lat2 lng2 * 10) : ℤ) / 10

/-- Sorting key of the results: `(a.distance || 0) - (b.distance || 0)`. -/
def shelterLE (a b : RealShelter) : Prop := a.distance.getD 0 ≤ b.distance.getD 0

instance : DecidableRel shelterLE :=
  fun a b => inferInstanceAs (Decidable (a.distance.getD 0 ≤ b.distance.getD 0))

/-- Models `searchRealShelters`.  The cache key is
`${lat.toFixed(3)},${lng.toFixed(3)},${radius}`.  The network oracle
returns the already-parsed shelter list from whichever backend answered
(Google Places or the OpenStreetMap fallback); `none` means both failed,
which returns `[]` without caching. -/
def searchRealShelters (cache : ShelterCache) (lat lng : ℚ) (_apiKey : String)
    (radius now : ℚ) (net : Option (List RealShelter)) :
    List RealShelter × ShelterCache × Bool :=
  let cacheKey := (roundTo3 lat, roundTo3 lng, radius)
  match lookupEntry cache cacheKey with
  | some cached =>
    if now - cached.timestamp < CACHE_DURATION then (cached.data, cache, false)
    else
      match net with
      | some shelters =>
        let sorted := shelters.insertionSort shelterLE
        (sorted, setEntry cache cacheKey ⟨sorted, now⟩, true)
      | Option.none => ([], cache, true)
  | Option.none =>
    match net with
    | some shelters =>
      let sorted := shelters.insertionSort shelterLE
      (sorted, setEntry cache cacheKey ⟨sorted, now⟩, true)
    | Option.none => ([], cache, true)

end ShelterService

/-! ### Claim-level helper predicates -/

namespace LocationHazardService

/-- The probability of the `i`-th entry of the prediction list
(flood, earthquake, storm, fire, landslide). -/
def hazardProbability (i : Fin 5) (g : CityGeographicData) (w : WeatherData)
    (month : ℕ) : ℚ :=
  match i with
  | 0 => (calculateFloodRisk g w month).probability
  | 1 => (calculateEarthquakeRisk g).probability
  | 2 => (calculateStormRisk g w).probability
  | 3 => (calculateFireRisk g w).probability
  | 4 => (calculateLandslideRisk g w).probability

/-- Models `riskLevel` agrees with `probability` under the fixed threshold map. -/
def levelConsistent (r : HazardRiskResult) : Prop :=
  (r.riskLevel = .critical ↔ 0.70 ≤ r.probability) ∧
  (r.riskLevel = .high ↔ 0.45 ≤ r.probability ∧ r.probability < 0.70) ∧
  (r.riskLevel = .moderate ↔ 0.20 ≤ r.probability ∧ r.probability < 0.45) ∧
  (r.riskLevel = .low ↔ r.probability < 0.20)

end LocationHazardService

/-!
## Theorems
-/

theorem le_jsMin {c a b : ℚ} (h1 : c ≤ a) (h2 : c ≤ b) : c ≤ jsMin a b := by
  unfold jsMin; split_ifs <;> assumption

theorem jsMin_le_left (a b : ℚ) : jsMin a b ≤ a := by
  unfold jsMin; split_ifs with h
  · exact le_refl a
  · exact le_of_not_le h

theorem jsMin_le_right (a b : ℚ) : jsMin a b ≤ b := by
  unfold jsMin; split_ifs with h
  · exact h
  · exact le_refl b

theorem left_le_jsMax (a b : ℚ) : a ≤ jsMax a b := by
  unfold jsMax; split_ifs with h
  · exact h
  · exact le_refl a

theorem clear_not_stormy :
    (jsIncludes "clear" "storm" || jsIncludes "clear" "thunder") = false := by
  decide

namespace LocationHazardService

theorem floodRiverFactor_nonneg (g : CityGeographicData) : 0 ≤ (floodRiverFactor g).1 := by
  unfold floodRiverFactor; split_ifs <;> norm_num

theorem floodCoastFactor_nonneg (g : CityGeographicData) : 0 ≤ (floodCoastFactor g).1 := by
  unfold floodCoastFactor; split_ifs <;> norm_num

theorem floodTerrainFactor_nonneg (g : CityGeographicData) :
    0 ≤ (floodTerrainFactor g).1 := by
  unfold floodTerrainFactor; split_ifs <;> norm_num

theorem floodHistoryFactor_nonneg (g : CityGeographicData) :
    0 ≤ (floodHistoryFactor g).1 := by
  unfold floodHistoryFactor; split_ifs <;> norm_num

theorem floodRainFactor_nonneg (w : WeatherData) : 0 ≤ (floodRainFactor w).1 := by
  unfold floodRainFactor; split_ifs <;> norm_num

theorem floodHumidityFactor_nonneg (w : WeatherData) : 0 ≤ (floodHumidityFactor w).1 := by
  unfold floodHumidityFactor; split_ifs <;> norm_num

theorem floodMonsoonFactor_nonneg (g : CityGeographicData) (month : ℕ) :
    0 ≤ (floodMonsoonFactor g month).1 := by
  unfold floodMonsoonFactor; split_ifs <;> norm_num

theorem floodRiskScore_nonneg (g : CityGeographicData) (w : WeatherData) (month : ℕ) :
    0 ≤ floodRiskScore g w month := by
  unfold floodRiskScore
  exact add_nonneg (add_nonneg (add_nonneg (add_nonneg (add_nonneg (add_nonneg
    (floodRiverFactor_nonneg g) (floodCoastFactor_nonneg g))
    (floodTerrainFactor_nonneg g)) (floodHistoryFactor_nonneg g))
    (floodRainFactor_nonneg w)) (floodHumidityFactor_nonneg w))
    (floodMonsoonFactor_nonneg g month)

theorem quakeRiskScore_nonneg (g : CityGeographicData) : 0 ≤ quakeRiskScore g := by
  have h1 : 0 ≤ (quakeZoneFactor g).1 := by
    unfold quakeZoneFactor
    split_ifs <;> norm_num
  have h2 : 0 ≤ (quakeTerrainFactor g).1 := by
    unfold quakeTerrainFactor; split_ifs <;> norm_num
  exact add_nonneg h1 h2

theorem stormRiskScore_nonneg (g : CityGeographicData) (w : WeatherData) :
    0 ≤ stormRiskScore g w := by
  have h1 : 0 ≤ (stormWindFactor w).1 := by unfold stormWindFactor; split_ifs <;> norm_num
  have h2 : 0 ≤ (stormPressureFactor w).1 := by
    unfold stormPressureFactor; split_ifs <;> norm_num
  have h3 : 0 ≤ (stormCloudFactor w).1 := by unfold stormCloudFactor; split_ifs <;> norm_num
  have h4 : 0 ≤ (stormCoastFactor g).1 := by unfold stormCoastFactor; split_ifs <;> norm_num
  have h5 : 0 ≤ (stormDescriptionFactor w).1 := by
    unfold stormDescriptionFactor; split_ifs <;> norm_num
  exact add_nonneg (add_nonneg (add_nonneg (add_nonneg h1 h2) h3) h4) h5

theorem fireBaseScore_nonneg (g : CityGeographicData) (w : WeatherData) :
    0 ≤ fireBaseScore g w := by
  have h1 : 0 ≤ (fireVegetationFactor g).1 := by
    unfold fireVegetationFactor; split_ifs <;> norm_num
  have h2 : 0 ≤ (fireHumidityFactor w).1 := by
    unfold fireHumidityFactor; split_ifs <;> norm_num
  have h3 : 0 ≤ (fireTemperatureFactor w).1 := by
    unfold fireTemperatureFactor; split_ifs <;> norm_num
  have h4 : 0 ≤ (fireWindFactor w).1 := by unfold fireWindFactor; split_ifs <;> norm_num
  unfold fireBaseScore
  split_ifs
  · norm_num
  · exact add_nonneg (add_nonneg (add_nonneg h1 h2) h3) h4

theorem fireRiskScore_nonneg (g : CityGeographicData) (w : WeatherData) :
    0 ≤ fireRiskScore g w := by
  unfold fireRiskScore
  split_ifs
  · exact left_le_jsMax 0 _
  · exact fireBaseScore_nonneg g w

theorem landslideRiskScore_nonneg (g : CityGeographicData) (w : WeatherData) :
    0 ≤ landslideRiskScore g w := by
  have h1 : 0 ≤ (landslideTerrainFactor g).1 := by
    unfold landslideTerrainFactor; split_ifs <;> norm_num
  have h2 : 0 ≤ (landslideRainFactor w).1 := by
    unfold landslideRainFactor; split_ifs <;> norm_num
  have h3 : 0 ≤ (landslideSeismicFactor g).1 := by
    unfold landslideSeismicFactor; split_ifs <;> norm_num
  have h4 : 0 ≤ (landslideElevationFactor g).1 := by
    unfold landslideElevationFactor; split_ifs <;> norm_num
  unfold landslideRiskScore
  split_ifs
  · exact add_nonneg h1 (add_nonneg (add_nonneg h2 h3) h4)
  · simpa using h1

/-- C1: each of the five hazard scoring functions returns a probability in
`[0, 1]`, obtained by summing weighted risk factors and clamping to the
per-hazard maximum (0.95 flood, 0.60 earthquake, 0.90 storm, 0.80 fire,
0.85 landslide); in particular the probability is never negative, even when
the fire score is reduced by 20 for recent rainfall. -/
theorem hazard_probabilities_bounded (g : CityGeographicData) (w : WeatherData)
    (month : ℕ) :
    (0 ≤ (calculateFloodRisk g w month).probability ∧
      (calculateFloodRisk g w month).probability ≤ 0.95) ∧
    (0 ≤ (calculateEarthquakeRisk g).probability ∧
      (calculateEarthquakeRisk g).probability ≤ 0.60) ∧
    (0 ≤ (calculateStormRisk g w).probability ∧
      (calculateStormRisk g w).probability ≤ 0.90) ∧
    (0 ≤ (calculateFireRisk g w).probability ∧
      (calculateFireRisk g w).probability ≤ 0.80) ∧
    (0 ≤ (calculateLandslideRisk g w).probability ∧
      (calculateLandslideRisk g w).probability ≤ 0.85) := by
  have hdiv : ∀ s : ℚ, 0 ≤ s → (0 : ℚ) ≤ s / 100 := fun s hs => by positivity
  refine ⟨⟨?_, ?_⟩, ⟨?_, ?_⟩, ⟨?_, ?_⟩, ⟨?_, ?_⟩, ⟨?_, ?_⟩⟩
  · simp only [calculateFloodRisk]
    split_ifs
    · exact le_jsMin (le_jsMin (hdiv _ (floodRiskScore_nonneg g w month)) (by norm_num))
        (by norm_num)
    · exact le_jsMin (hdiv _ (floodRiskScore_nonneg g w month)) (by norm_num)
  · simp only [calculateFloodRisk]
    split_ifs
    · exact le_trans (jsMin_le_left _ _) (jsMin_le_right _ _)
    · exact jsMin_le_right _ _
  · exact le_jsMin (hdiv _ (quakeRiskScore_nonneg g)) (by norm_num)
  · exact jsMin_le_right _ _
  · exact le_jsMin (hdiv _ (stormRiskScore_nonneg g w)) (by norm_num)
  · exact jsMin_le_right _ _
  · exact le_jsMin (hdiv _ (fireRiskScore_nonneg g w)) (by norm_num)
  · exact jsMin_le_right _ _
  · exact le_jsMin (hdiv _ (landslideRiskScore_nonneg g w)) (by norm_num)
  · exact jsMin_le_right _ _

theorem getRiskLevel_spec (p : ℚ) :
    (getRiskLevel p = .critical ↔ 0.70 ≤ p) ∧
    (getRiskLevel p = .high ↔ 0.45 ≤ p ∧ p < 0.70) ∧
    (getRiskLevel p = .moderate ↔ 0.20 ≤ p ∧ p < 0.45) ∧
    (getRiskLevel p = .low ↔ p < 0.20) := by
  unfold getRiskLevel
  split_ifs with h1 h2 h3 <;>
    refine ⟨?_, ?_, ?_, ?_⟩ <;> simp_all <;>
    first
      | linarith
      | (intro h; linarith)

/-- C8: in every `HazardRiskResult` produced by the five scoring functions,
`riskLevel` agrees with `probability` under the fixed threshold mapping
(critical iff ≥ 0.70, high iff in [0.45, 0.70), moderate iff in
[0.20, 0.45), low iff < 0.20). -/
theorem riskLevel_matches_probability (g : CityGeographicData) (w : WeatherData)
    (month : ℕ) :
    levelConsistent (calculateFloodRisk g w month) ∧
    levelConsistent (calculateEarthquakeRisk g) ∧
    levelConsistent (calculateStormRisk g w) ∧
    levelConsistent (calculateFireRisk g w) ∧
    levelConsistent (calculateLandslideRisk g w) := by
  have key : ∀ r : HazardRiskResult,
      r.riskLevel = getRiskLevel r.probability → levelConsistent r := by
    intro r h
    unfold levelConsistent
    rw [h]
    exact getRiskLevel_spec r.probability
  exact ⟨key _ rfl, key _ rfl, key _ rfl, key _ rfl, key _ rfl⟩

/-- C3 counterexample: `calculateFloodRisk` reads `new Date().getMonth()`,
so two runs on identical geographic and weather arguments (Mumbai's record,
calm weather) differ between June (`month = 5`) and October (`month = 9`):
the probability is 0.80 during the monsoon window and 0.65 outside it. -/
theorem flood_probability_depends_on_month :
    (calculateFloodRisk ⟨14, .coastal, true, 2, true, 0, 3, 2422, .urban, .frequent⟩
        ⟨25, 50, 0, 0, 1013, "clear", 0⟩ 5).probability ≠
      (calculateFloodRisk ⟨14, .coastal, true, 2, true, 0, 3, 2422, .urban, .frequent⟩
        ⟨25, 50, 0, 0, 1013, "clear", 0⟩ 9).probability := by
  simp [calculateFloodRisk, floodRiskScore, floodRiverFactor, floodCoastFactor,
    floodTerrainFactor, floodHistoryFactor, floodRainFactor, floodHumidityFactor,
    floodMonsoonFactor, jsMin]
  norm_num

/-- C3 amended: the five scoring functions are deterministic in the
geographic data, the weather and the current month of the system clock;
`calculateFloodRisk` depends on the month only through the June–September
monsoon test, and the other four functions take only their two arguments. -/
theorem hazard_results_deterministic (g : CityGeographicData) (w : WeatherData)
    (m m' : ℕ) (h : (5 ≤ m ∧ m ≤ 8) ↔ (5 ≤ m' ∧ m' ≤ 8)) :
    calculateFloodRisk g w m = calculateFloodRisk g w m' ∧
    calculateEarthquakeRisk g = calculateEarthquakeRisk g ∧
    calculateStormRisk g w = calculateStormRisk g w ∧
    calculateFireRisk g w = calculateFireRisk g w ∧
    calculateLandslideRisk g w = calculateLandslideRisk g w := by
  have hm : floodMonsoonFactor g m = floodMonsoonFactor g m' := by
    unfold floodMonsoonFactor
    have hiff : (5 ≤ m ∧ m ≤ 8 ∧ g.annualRainfall > 1000) ↔
        (5 ≤ m' ∧ m' ≤ 8 ∧ g.annualRainfall > 1000) := by
      constructor
      · rintro ⟨a, b, c⟩; exact ⟨(h.mp ⟨a, b⟩).1, (h.mp ⟨a, b⟩).2, c⟩
      · rintro ⟨a, b, c⟩; exact ⟨(h.mpr ⟨a, b⟩).1, (h.mpr ⟨a, b⟩).2, c⟩
    rw [if_congr hiff rfl rfl]
  refine ⟨?_, rfl, rfl, rfl, rfl⟩
  simp only [calculateFloodRisk, floodRiskScore, floodFactors, hm]

theorem hazard_results_deterministic_witness :
    ((5 ≤ 0 ∧ 0 ≤ 8) ↔ (5 ≤ 1 ∧ 1 ≤ 8)) ∧
    (calculateFloodRisk ⟨216, .flat, true, 5, false, 1000, 4, 797, .urban, .occasional⟩
        ⟨25, 50, 0, 0, 1013, "clear", 0⟩ 0 =
      calculateFloodRisk ⟨216, .flat, true, 5, false, 1000, 4, 797, .urban, .occasional⟩
        ⟨25, 50, 0, 0, 1013, "clear", 0⟩ 1 ∧
    calculateEarthquakeRisk ⟨216, .flat, true, 5, false, 1000, 4, 797, .urban, .occasional⟩ =
      calculateEarthquakeRisk ⟨216, .flat, true, 5, false, 1000, 4, 797, .urban, .occasional⟩ ∧
    calculateStormRisk ⟨216, .flat, true, 5, false, 1000, 4, 797, .urban, .occasional⟩
        ⟨25, 50, 0, 0, 1013, "clear", 0⟩ =
      calculateStormRisk ⟨216, .flat, true, 5, false, 1000, 4, 797, .urban, .occasional⟩
        ⟨25, 50, 0, 0, 1013, "clear", 0⟩ ∧
    calculateFireRisk ⟨216, .flat, true, 5, false, 1000, 4, 797, .urban, .occasional⟩
        ⟨25, 50, 0, 0, 1013, "clear", 0⟩ =
      calculateFireRisk ⟨216, .flat, true, 5, false, 1000, 4, 797, .urban, .occasional⟩
        ⟨25, 50, 0, 0, 1013, "clear", 0⟩ ∧
    calculateLandslideRisk ⟨216, .flat, true, 5, false, 1000, 4, 797, .urban, .occasional⟩
        ⟨25, 50, 0, 0, 1013, "clear", 0⟩ =
      calculateLandslideRisk ⟨216, .flat, true, 5, false, 1000, 4, 797, .urban, .occasional⟩
        ⟨25, 50, 0, 0, 1013, "clear", 0⟩) :=
  ⟨by decide,
   hazard_results_deterministic ⟨216, .flat, true, 5, false, 1000, 4, 797, .urban, .occasional⟩
     ⟨25, 50, 0, 0, 1013, "clear", 0⟩ 0 1 (by decide)⟩

/-- C4: `getHazardPredictions` returns exactly the five results — flood,
earthquake, storm, fire, landslide, in that order — each produced by its own
scoring function over the same geographic data and the same fetched weather;
there is no shared mutable state between the five computations. -/
theorem getHazardPredictions_five_in_order (cityName : String) (lat lon : ℚ)
    (cache : WeatherCache) (now : ℚ) (net : Option WeatherData) (month : ℕ) :
    getHazardPredictions cityName lat lon cache now net month =
      [calculateFloodRisk (getGeographicData cityName lat lon)
          (getWeatherData cache lat lon now net).1 month,
       calculateEarthquakeRisk (getGeographicData cityName lat lon),
       calculateStormRisk (getGeographicData cityName lat lon)
          (getWeatherData cache lat lon now net).1,
       calculateFireRisk (getGeographicData cityName lat lon)
          (getWeatherData cache lat lon now net).1,
       calculateLandslideRisk (getGeographicData cityName lat lon)
          (getWeatherData cache lat lon now net).1] ∧
    (getHazardPredictions cityName lat lon cache now net month).map
        HazardRiskResult.type =
      [.flood, .earthquake, .storm, .fire, .landslide] :=
  ⟨rfl, rfl⟩

/-- C5 counterexample: it is not the case that, for every hazard type, both
the geographic-data argument and the weather argument can influence the
returned probability — the earthquake entry (index 1) is computed by
`calculateEarthquakeRisk(geoData)` alone and cannot be influenced by the
weather. -/
theorem earthquake_probability_ignores_weather :
    ¬ (∀ i : Fin 5,
        (∃ g g' : CityGeographicData, ∃ w : WeatherData, ∃ m : ℕ,
          hazardProbability i g w m ≠ hazardProbability i g' w m) ∧
        (∃ g : CityGeographicData, ∃ w w' : WeatherData, ∃ m : ℕ,
          hazardProbability i g w m ≠ hazardProbability i g w' m)) := by
  intro h
  obtain ⟨-, _, w, w', m, hne⟩ := h 1
  exact hne rfl

/-- C5 amended: flood, storm, fire and landslide probabilities are
influenced by both the geographic data and the weather; the earthquake
probability is influenced by the geographic data but is a function of it
alone (the weather argument never changes it). -/
theorem hazard_blending_amended :
    (∃ g g' : CityGeographicData, ∃ w : WeatherData, ∃ m : ℕ,
        hazardProbability 0 g w m ≠ hazardProbability 0 g' w m) ∧
    (∃ g : CityGeographicData, ∃ w w' : WeatherData, ∃ m : ℕ,
        hazardProbability 0 g w m ≠ hazardProbability 0 g w' m) ∧
    (∃ g g' : CityGeographicData, ∃ w : WeatherData, ∃ m : ℕ,
        hazardProbability 1 g w m ≠ hazardProbability 1 g' w m) ∧
    (∀ (g : CityGeographicData) (w w' : WeatherData) (m : ℕ),
        hazardProbability 1 g w m = hazardProbability 1 g w' m) ∧
    (∃ g g' : CityGeographicData, ∃ w : WeatherData, ∃ m : ℕ,
        hazardProbability 2 g w m ≠ hazardProbability 2 g' w m) ∧
    (∃ g : CityGeographicData, ∃ w w' : WeatherData, ∃ m : ℕ,
        hazardProbability 2 g w m ≠ hazardProbability 2 g w' m) ∧
    (∃ g g' : CityGeographicData, ∃ w : WeatherData, ∃ m : ℕ,
        hazardProbability 3 g w m ≠ hazardProbability 3 g' w m) ∧
    (∃ g : CityGeographicData, ∃ w w' : WeatherData, ∃ m : ℕ,
        hazardProbability 3 g w m ≠ hazardProbability 3 g w' m) ∧
    (∃ g g' : CityGeographicData, ∃ w : WeatherData, ∃ m : ℕ,
        hazardProbability 4 g w m ≠ hazardProbability 4 g' w m) ∧
    (∃ g : CityGeographicData, ∃ w w' : WeatherData, ∃ m : ℕ,
        hazardProbability 4 g w m ≠ hazardProbability 4 g w' m) := by
  refine ⟨⟨⟨14, .coastal, true, 2, true, 0, 3, 2422, .urban, .frequent⟩,
      ⟨200, .flat, false, 100, false, 500, 2, 800, .moderate, .rare⟩,
      ⟨25, 50, 0, 0, 1013, "clear", 0⟩, 0, ?_⟩,
    ⟨⟨14, .coastal, true, 2, true, 0, 3, 2422, .urban, .frequent⟩,
      ⟨25, 50, 0, 0, 1013, "clear", 0⟩, ⟨25, 50, 0, 60, 1013, "clear", 0⟩, 0, ?_⟩,
    ⟨⟨216, .flat, true, 5, false, 1000, 4, 797, .urban, .occasional⟩,
      ⟨200, .flat, false, 100, false, 500, 2, 800, .moderate, .rare⟩,
      ⟨25, 50, 0, 0, 1013, "clear", 0⟩, 0, ?_⟩,
    fun _ _ _ _ => rfl,
    ⟨⟨14, .coastal, true, 2, true, 0, 3, 2422, .urban, .frequent⟩,
      ⟨200, .flat, false, 100, false, 500, 2, 800, .moderate, .rare⟩,
      ⟨25, 50, 0, 0, 1013, "clear", 0⟩, 0, ?_⟩,
    ⟨⟨200, .flat, false, 100, false, 500, 2, 800, .moderate, .rare⟩,
      ⟨25, 50, 0, 0, 1013, "clear", 0⟩, ⟨25, 50, 25, 0, 1013, "clear", 0⟩, 0, ?_⟩,
    ⟨⟨216, .flat, true, 5, false, 1000, 4, 797, .urban, .occasional⟩,
      ⟨2276, .mountainous, true, 10, false, 1200, 4, 1575, .dense, .rare⟩,
      ⟨25, 50, 0, 0, 1013, "clear", 0⟩, 0, ?_⟩,
    ⟨⟨2276, .mountainous, true, 10, false, 1200, 4, 1575, .dense, .rare⟩,
      ⟨25, 50, 0, 0, 1013, "clear", 0⟩, ⟨25, 20, 0, 0, 1013, "clear", 0⟩, 0, ?_⟩,
    ⟨⟨200, .flat, false, 100, false, 500, 2, 800, .moderate, .rare⟩,
      ⟨2276, .mountainous, true, 10, false, 1200, 4, 1575, .dense, .rare⟩,
      ⟨25, 50, 0, 0, 1013, "clear", 0⟩, 0, ?_⟩,
    ⟨⟨2276, .mountainous, true, 10, false, 1200, 4, 1575, .dense, .rare⟩,
      ⟨25, 50, 0, 0, 1013, "clear", 0⟩, ⟨25, 50, 0, 60, 1013, "clear", 0⟩, 0, ?_⟩⟩
  · simp [hazardProbability, calculateFloodRisk, floodRiskScore, floodRiverFactor,
      floodCoastFactor, floodTerrainFactor, floodHistoryFactor, floodRainFactor,
      floodHumidityFactor, floodMonsoonFactor, jsMin] <;> norm_num
  · simp [hazardProbability, calculateFloodRisk, floodRiskScore, floodRiverFactor,
      floodCoastFactor, floodTerrainFactor, floodHistoryFactor, floodRainFactor,
      floodHumidityFactor, floodMonsoonFactor, jsMin] <;> norm_num
  · simp [hazardProbability, calculateEarthquakeRisk, quakeRiskScore, quakeZoneFactor,
      quakeTerrainFactor, jsMin] <;> norm_num
  · simp [hazardProbability, calculateStormRisk, stormRiskScore, stormWindFactor,
      stormPressureFactor, stormCloudFactor, stormCoastFactor, stormDescriptionFactor,
      clear_not_stormy, jsMin] <;> norm_num
  · simp [hazardProbability, calculateStormRisk, stormRiskScore, stormWindFactor,
      stormPressureFactor, stormCloudFactor, stormCoastFactor, stormDescriptionFactor,
      clear_not_stormy, jsMin] <;> norm_num
  · simp [hazardProbability, calculateFireRisk, fireRiskScore, fireBaseScore,
      fireVegetationFactor, fireHumidityFactor, fireTemperatureFactor, fireWindFactor,
      jsMin, jsMax] <;> norm_num
  · simp [hazardProbability, calculateFireRisk, fireRiskScore, fireBaseScore,
      fireVegetationFactor, fireHumidityFactor, fireTemperatureFactor, fireWindFactor,
      jsMin, jsMax] <;> norm_num
  · simp [hazardProbability, calculateLandslideRisk, landslideRiskScore,
      landslideTerrainFactor, landslideRainFactor, landslideSeismicFactor,
      landslideElevationFactor, jsMin] <;> norm_num
  · simp [hazardProbability, calculateLandslideRisk, landslideRiskScore,
      landslideTerrainFactor, landslideRainFactor, landslideSeismicFactor,
      landslideElevationFactor, jsMin] <;> norm_num

/-- C10: `getGeographicData` is total, and for a city name that is empty or
all whitespace the partial-match loop returns the first database entry —
Delhi's record (every key contains the empty string) — which is neither the
`'default'` record nor any coordinate-based estimate. -/
theorem getGeographicData_blank_city (cityName : String) (lat lon : ℚ)
    (h : jsTrim (jsToLower cityName) = "") :
    getGeographicData cityName lat lon =
      ⟨216, .flat, true, 5, false, 1000, 4, 797, .urban, .occasional⟩ ∧
    (⟨216, .flat, true, 5, false, 1000, 4, 797, .urban, .occasional⟩ :
        CityGeographicData) ≠
      ⟨200, .flat, false, 100, false, 500, 2, 800, .moderate, .rare⟩ ∧
    (∀ la lo : ℚ,
      (⟨216, .flat, true, 5, false, 1000, 4, 797, .urban, .occasional⟩ :
        CityGeographicData) ≠ estimateGeographicData la lo) := by
  refine ⟨?_, by norm_num [CityGeographicData.mk.injEq], ?_⟩
  · simp only [getGeographicData, h]
    rfl
  · intro la lo heq
    have helev := congrArg CityGeographicData.elevation heq
    simp only [estimateGeographicData] at helev
    split_ifs at helev <;> norm_num at helev

theorem getGeographicData_blank_city_witness :
    (jsTrim (jsToLower "") = "") ∧
    (getGeographicData "" 19 72 =
        ⟨216, .flat, true, 5, false, 1000, 4, 797, .urban, .occasional⟩ ∧
      (⟨216, .flat, true, 5, false, 1000, 4, 797, .urban, .occasional⟩ :
          CityGeographicData) ≠
        ⟨200, .flat, false, 100, false, 500, 2, 800, .moderate, .rare⟩ ∧
      (∀ la lo : ℚ,
        (⟨216, .flat, true, 5, false, 1000, 4, 797, .urban, .occasional⟩ :
          CityGeographicData) ≠ estimateGeographicData la lo)) :=
  ⟨rfl, getGeographicData_blank_city "" 19 72 rfl⟩

end LocationHazardService

theorem jsAtan2_nonneg {y x : ℝ} (hy : 0 ≤ y) (hx : 0 ≤ x) : 0 ≤ jsAtan2 y x := by
  unfold jsAtan2
  split_ifs with h1 h2 h3 h4 <;>
    first
      | (have h := Real.arctan_strictMono.monotone (div_nonneg hy (le_of_lt h1))
         rwa [Real.arctan_zero] at h)
      | linarith [Real.pi_pos]

theorem jsAtan2_zero_one : jsAtan2 0 1 = 0 := by
  unfold jsAtan2
  rw [if_pos one_pos]
  rw [zero_div, Real.arctan_zero]

namespace DisasterDataService

theorem haversineA_comm (lat1 lon1 lat2 lon2 : ℝ) :
    haversineA lat1 lon1 lat2 lon2 = haversineA lat2 lon2 lat1 lon1 := by
  unfold haversineA
  have h1 : (lat1 - lat2) * Real.pi / 180 / 2 = -((lat2 - lat1) * Real.pi / 180 / 2) := by
    ring
  have h2 : (lon1 - lon2) * Real.pi / 180 / 2 = -((lon2 - lon1) * Real.pi / 180 / 2) := by
    ring
  rw [h1, h2, Real.sin_neg, Real.sin_neg]
  ring

theorem haversineA_self (lat lon : ℝ) : haversineA lat lon lat lon = 0 := by
  unfold haversineA
  have h1 : (lat - lat) * Real.pi / 180 / 2 = 0 := by ring
  have h2 : (lon - lon) * Real.pi / 180 / 2 = 0 := by ring
  rw [h1, h2, Real.sin_zero]
  ring

theorem calculateDistance_nonneg (a b c d : ℝ) : 0 ≤ calculateDistance a b c d := by
  unfold calculateDistance
  have h := jsAtan2_nonneg (Real.sqrt_nonneg (haversineA a b c d))
    (Real.sqrt_nonneg (1 - haversineA a b c d))
  linarith

theorem calculateDistance_comm (a b c d : ℝ) :
    calculateDistance a b c d = calculateDistance c d a b := by
  unfold calculateDistance
  rw [haversineA_comm]

theorem calculateDistance_self (a b : ℝ) : calculateDistance a b a b = 0 := by
  unfold calculateDistance
  rw [haversineA_self, Real.sqrt_zero, sub_zero, Real.sqrt_one, jsAtan2_zero_one]
  ring

end DisasterDataService

theorem round_nonneg_of_nonneg {x : ℝ} (hx : 0 ≤ x) : (0 : ℤ) ≤ round x := by
  rw [round_eq]
  exact Int.floor_nonneg.mpr (by linarith)

/-- C6: both `calculateDistance` functions implement the Haversine formula
with Earth radius 6371 km: the result is non-negative, symmetric in the two
points, and zero from a point to itself; the shelterService variant rounds
to one decimal place and keeps all three properties. -/
theorem calculateDistance_haversine_properties (lat1 lon1 lat2 lon2 : ℝ) :
    0 ≤ DisasterDataService.calculateDistance lat1 lon1 lat2 lon2 ∧
    DisasterDataService.calculateDistance lat1 lon1 lat2 lon2 =
      DisasterDataService.calculateDistance lat2 lon2 lat1 lon1 ∧
    DisasterDataService.calculateDistance lat1 lon1 lat1 lon1 = 0 ∧
    0 ≤ ShelterService.calculateDistance lat1 lon1 lat2 lon2 ∧
    ShelterService.calculateDistance lat1 lon1 lat2 lon2 =
      ShelterService.calculateDistance lat2 lon2 lat1 lon1 ∧
    ShelterService.calculateDistance lat1 lon1 lat1 lon1 = 0 := by
  refine ⟨DisasterDataService.calculateDistance_nonneg _ _ _ _,
    DisasterDataService.calculateDistance_comm _ _ _ _,
    DisasterDataService.calculateDistance_self _ _, ?_, ?_, ?_⟩
  · unfold ShelterService.calculateDistance
    have h10 : (0 : ℝ) ≤ DisasterDataService.calculateDistance lat1 lon1 lat2 lon2 * 10 := by
      have := DisasterDataService.calculateDistance_nonneg lat1 lon1 lat2 lon2
      linarith
    have hz := round_nonneg_of_nonneg h10
    have : (0 : ℝ) ≤ ((round (DisasterDataService.calculateDistance lat1 lon1 lat2 lon2 * 10) : ℤ) : ℝ) := by
      exact_mod_cast hz
    linarith
  · unfold ShelterService.calculateDistance
    rw [DisasterDataService.calculateDistance_comm lat1 lon1 lat2 lon2]
  · unfold ShelterService.calculateDistance
    rw [DisasterDataService.calculateDistance_self lat1 lon1]
    norm_num

namespace DisasterDataService

/-- C9: `calculateNearbyThreats` returns at most 10 entries, sorted by
ascending (rounded) distance from the query coordinates. -/
theorem nearbyThreats_at_most_ten_sorted (lat lon : ℚ)
    (earthquakes : List USGSEarthquake) (nasaEvents : List NASAEvent)
    (gdacsAlerts : List GDACSAlert) (activeFires : List FIRMSFire)
    (imdWarnings : List IMDWarning) :
    (calculateNearbyThreats lat lon earthquakes nasaEvents gdacsAlerts activeFires
        imdWarnings).length ≤ 10 ∧
    List.Sorted threatLE (calculateNearbyThreats lat lon earthquakes nasaEvents
      gdacsAlerts activeFires imdWarnings) := by
  unfold calculateNearbyThreats
  constructor
  · rw [List.length_take]
    exact min_le_left _ _
  · exact List.Pairwise.sublist (List.take_sublist _ _)
      (List.sorted_insertionSort threatLE _)

end DisasterDataService

theorem lookupEntry_filter_ne {κ α : Type} [DecidableEq κ]
    (c : List (κ × CacheEntry α)) (k k' : κ) (h : k' ≠ k) :
    lookupEntry (c.filter (fun p => p.1 ≠ k)) k' = lookupEntry c k' := by
  induction c with
  | nil => rfl
  | cons p rest ih =>
    rcases p with ⟨k₀, e₀⟩
    rw [List.filter_cons]
    by_cases h₀ : k₀ = k
    · subst h₀
      have hkk : ¬ (k₀ = k') := fun hh => h hh.symm
      simp only [ne_eq, decide_not] at ih
      simp [lookupEntry, hkk, ih]
    · simp only [ne_eq, decide_not] at ih
      simp [lookupEntry, h₀, ih]

theorem lookupEntry_setEntry_ne {κ α : Type} [DecidableEq κ]
    (c : List (κ × CacheEntry α)) (k k' : κ) (e : CacheEntry α) (h : k' ≠ k) :
    lookupEntry (setEntry c k e) k' = lookupEntry c k' := by
  unfold setEntry
  have hkk : ¬ (k = k') := fun hh => h hh.symm
  simp only [lookupEntry, if_neg hkk]
  exact lookupEntry_filter_ne c k k' h

/-- C2: each TTL cache serves a fresh entry without a network call — for the
weather cache of `LocationHazardService`, the data cache of
`DisasterDataService` (`getFromCache`, and hence `fetchNASAEvents`), and the
shelter cache of `shelterService`; and the only write operation, `Map.set`,
never removes any other key, so entries expire only through elapsed
wall-clock time. -/
theorem ttl_caches_serve_fresh_entries
    (wc : LocationHazardService.WeatherCache) (lat lon now : ℚ)
    (wnet : Option LocationHazardService.WeatherData)
    (we : CacheEntry LocationHazardService.WeatherData)
    (hw : lookupEntry wc (roundTo2 lat, roundTo2 lon) = some we)
    (hwf : now - we.timestamp < LocationHazardService.CACHE_DURATION)
    (dc : DisasterDataService.DisasterCache) (dkey : String) (dnow : ℚ)
    (de : CacheEntry DisasterDataService.DisasterPayload)
    (hd : lookupEntry dc dkey = some de)
    (hdf : dnow - de.timestamp < DisasterDataService.CACHE_DURATION)
    (nevs : List DisasterDataService.NASAEvent)
    (nnet : Option (List DisasterDataService.NASAEvent))
    (hn : DisasterDataService.getFromCache dc "nasa_eonet" dnow =
      some (DisasterDataService.DisasterPayload.nasa nevs))
    (sc : ShelterService.ShelterCache) (slat slng srad snow : ℚ) (apiKey : String)
    (snet : Option (List ShelterService.RealShelter))
    (se : CacheEntry (List ShelterService.RealShelter))
    (hs : lookupEntry sc (roundTo3 slat, roundTo3 slng, srad) = some se)
    (hsf : snow - se.timestamp < ShelterService.CACHE_DURATION)
    {κ α : Type} [DecidableEq κ] (c : List (κ × CacheEntry α)) (k k' : κ)
    (e : CacheEntry α) (hk : k' ≠ k) :
    LocationHazardService.getWeatherData wc lat lon now wnet = (we.data, wc, false) ∧
    DisasterDataService.getFromCache dc dkey dnow = some de.data ∧
    DisasterDataService.fetchNASAEvents dc dnow nnet = (nevs, dc, false) ∧
    ShelterService.searchRealShelters sc slat slng apiKey srad snow snet =
      (se.data, sc, false) ∧
    lookupEntry (setEntry c k e) k' = lookupEntry c k' := by
  refine ⟨?_, ?_, ?_, ?_, lookupEntry_setEntry_ne c k k' e hk⟩
  · simp only [LocationHazardService.getWeatherData, hw]
    rw [if_pos hwf]
  · simp only [DisasterDataService.getFromCache, hd]
    rw [if_pos hdf]
  · simp only [DisasterDataService.fetchNASAEvents, hn]
  · simp only [ShelterService.searchRealShelters, hs]
    rw [if_pos hsf]

theorem ttl_caches_serve_fresh_entries_witness :
    lookupEntry [(((0 : ℚ), (0 : ℚ)),
        (⟨LocationHazardService.defaultWeather, 0⟩ :
          CacheEntry LocationHazardService.WeatherData))]
      (roundTo2 0, roundTo2 0) = some ⟨LocationHazardService.defaultWeather, 0⟩ ∧
    (1 : ℚ) - 0 < LocationHazardService.CACHE_DURATION ∧
    lookupEntry [("nasa_eonet",
        (⟨DisasterDataService.DisasterPayload.nasa [], 0⟩ :
          CacheEntry DisasterDataService.DisasterPayload))]
      "nasa_eonet" = some ⟨DisasterDataService.DisasterPayload.nasa [], 0⟩ ∧
    (1 : ℚ) - 0 < DisasterDataService.CACHE_DURATION ∧
    DisasterDataService.getFromCache [("nasa_eonet",
        ⟨DisasterDataService.DisasterPayload.nasa [], 0⟩)] "nasa_eonet" 1 =
      some (DisasterDataService.DisasterPayload.nasa []) ∧
    lookupEntry [(((0 : ℚ), (0 : ℚ), (5000 : ℚ)),
        (⟨[], 0⟩ : CacheEntry (List ShelterService.RealShelter)))]
      (roundTo3 0, roundTo3 0, 5000) = some ⟨[], 0⟩ ∧
    (1 : ℚ) - 0 < ShelterService.CACHE_DURATION ∧
    ("b" : String) ≠ "a" ∧
    (LocationHazardService.getWeatherData
        [(((0 : ℚ), (0 : ℚ)), ⟨LocationHazardService.defaultWeather, 0⟩)] 0 0 1 none =
      (LocationHazardService.defaultWeather,
        [(((0 : ℚ), (0 : ℚ)), ⟨LocationHazardService.defaultWeather, 0⟩)], false) ∧
    DisasterDataService.getFromCache [("nasa_eonet",
        ⟨DisasterDataService.DisasterPayload.nasa [], 0⟩)] "nasa_eonet" 1 =
      some (DisasterDataService.DisasterPayload.nasa []) ∧
    DisasterDataService.fetchNASAEvents [("nasa_eonet",
        ⟨DisasterDataService.DisasterPayload.nasa [], 0⟩)] 1 none =
      ([], [("nasa_eonet", ⟨DisasterDataService.DisasterPayload.nasa [], 0⟩)], false) ∧
    ShelterService.searchRealShelters [(((0 : ℚ), (0 : ℚ), (5000 : ℚ)), ⟨[], 0⟩)]
        0 0 "demo-key" 5000 1 none =
      ([], [(((0 : ℚ), (0 : ℚ), (5000 : ℚ)), ⟨[], 0⟩)], false) ∧
    lookupEntry (setEntry ([] : List (String × CacheEntry ℕ)) "a" ⟨0, 0⟩) "b" =
      lookupEntry ([] : List (String × CacheEntry ℕ)) "b") := by
  have hw : lookupEntry [(((0 : ℚ), (0 : ℚ)),
      (⟨LocationHazardService.defaultWeather, 0⟩ :
        CacheEntry LocationHazardService.WeatherData))]
      (roundTo2 0, roundTo2 0) = some ⟨LocationHazardService.defaultWeather, 0⟩ := by
    simp [lookupEntry, roundTo2]
  have hwf : (1 : ℚ) - 0 < LocationHazardService.CACHE_DURATION := by
    norm_num [LocationHazardService.CACHE_DURATION]
  have hd : lookupEntry [("nasa_eonet",
      (⟨DisasterDataService.DisasterPayload.nasa [], 0⟩ :
        CacheEntry DisasterDataService.DisasterPayload))]
      "nasa_eonet" = some ⟨DisasterDataService.DisasterPayload.nasa [], 0⟩ := by
    simp [lookupEntry]
  have hdf : (1 : ℚ) - 0 < DisasterDataService.CACHE_DURATION := by
    norm_num [DisasterDataService.CACHE_DURATION]
  have hn : DisasterDataService.getFromCache [("nasa_eonet",
      ⟨DisasterDataService.DisasterPayload.nasa [], 0⟩)] "nasa_eonet" 1 =
      some (DisasterDataService.DisasterPayload.nasa []) := by
    simp only [DisasterDataService.getFromCache, hd]
    rw [if_pos hdf]
  have hs : lookupEntry [(((0 : ℚ), (0 : ℚ), (5000 : ℚ)),
      (⟨[], 0⟩ : CacheEntry (List ShelterService.RealShelter)))]
      (roundTo3 0, roundTo3 0, 5000) = some ⟨[], 0⟩ := by
    simp [lookupEntry, roundTo3]
  have hsf : (1 : ℚ) - 0 < ShelterService.CACHE_DURATION := by
    norm_num [ShelterService.CACHE_DURATION]
  have hk : ("b" : String) ≠ "a" := by decide
  exact ⟨hw, hwf, hd, hdf, hn, hs, hsf, hk,
    ttl_caches_serve_fresh_entries _ 0 0 1 none _ hw hwf _ "nasa_eonet" 1 _ hd hdf
      [] none hn _ 0 0 5000 1 "demo-key" none _ hs hsf
      ([] : List (String × CacheEntry ℕ)) "a" "b" ⟨0, 0⟩ hk⟩

namespace DisasterDataService

/-- C7: `getAggregatedData` always produces the merged response shape with
all six sources listed, whatever the network outcomes; each per-source fetch
function returns `[]` on any network failure, timeout or non-OK status (the
`none` oracle outcome) instead of throwing. -/
theorem aggregated_data_resilient
    (dc : DisasterCache) (lat lon now : ℚ) (net : NetOutcomes)
    (h1 : getFromCache dc "nasa_eonet" now = none)
    (h2 : getFromCache dc "gdacs_alerts" now = none)
    (h3 : getFromCache dc (usgsKey lat lon) now = none)
    (h4 : getFromCache dc (firmsKey lat lon) now = none)
    (h5 : getFromCache dc (imdKey lat lon) now = none) :
    (getAggregatedData dc lat lon now net).sources.map DataSource.name =
      ["NASA EONET", "GDACS", "USGS Earthquake", "NASA FIRMS", "IMD Warnings",
        "OpenWeatherMap"] ∧
    fetchNASAEvents dc now none = ([], dc, true) ∧
    fetchGDACSAlerts dc now none = ([], dc, true) ∧
    fetchUSGSEarthquakes dc lat lon 1000 now none = ([], dc, true) ∧
    fetchNASAFIRMS dc lat lon now none = ([], dc, true) ∧
    fetchIMDWarnings dc lat lon now none = ([], dc, true) := by
  refine ⟨rfl, ?_, ?_, ?_, ?_, ?_⟩
  · simp only [fetchNASAEvents, h1]
  · simp only [fetchGDACSAlerts, h2]
  · simp only [fetchUSGSEarthquakes, h3]
  · simp only [fetchNASAFIRMS, h4]
  · simp only [fetchIMDWarnings, h5]

theorem aggregated_data_resilient_witness :
    getFromCache [] "nasa_eonet" 0 = none ∧
    getFromCache [] "gdacs_alerts" 0 = none ∧
    getFromCache [] (usgsKey 0 0) 0 = none ∧
    getFromCache [] (firmsKey 0 0) 0 = none ∧
    getFromCache [] (imdKey 0 0) 0 = none ∧
    ((getAggregatedData [] 0 0 0 ⟨none, none, none, none, none⟩).sources.map
        DataSource.name =
      ["NASA EONET", "GDACS", "USGS Earthquake", "NASA FIRMS", "IMD Warnings",
        "OpenWeatherMap"] ∧
    fetchNASAEvents [] 0 none = ([], [], true) ∧
    fetchGDACSAlerts [] 0 none = ([], [], true) ∧
    fetchUSGSEarthquakes [] 0 0 1000 0 none = ([], [], true) ∧
    fetchNASAFIRMS [] 0 0 0 none = ([], [], true) ∧
    fetchIMDWarnings [] 0 0 0 none = ([], [], true)) :=
  ⟨rfl, rfl, rfl, rfl, rfl,
    aggregated_data_resilient [] 0 0 0 ⟨none, none, none, none, none⟩
      rfl rfl rfl rfl rfl⟩

end DisasterDataService

end AlertAid
